import Mathlib

/-!
Shallow embedding of the standalone JSON-to-PDF tool
(`tools/json-to-pdf.ts` of reactive-resume) and verification of its
specification claims.

Modelling conventions:
* JavaScript numbers appearing in geometry are modelled as `ℚ`
  (all the arithmetic involved — `/ 0.75`, `* 0.75`, sums of pixel
  sizes, `Math.max` — is exact on the rationals actually used);
  `Math.round x` is `round x = ⌊x + 1/2⌋`, which agrees with
  JavaScript's half-up rounding.
* A CSS custom-property value, as returned by `getPropertyValue(..).trim()`,
  is modelled by `PropValue`: the empty string (falsy, parses to NaN),
  a non-empty non-numeric string (truthy, parses to NaN), or a string
  with a leading numeric part `q` (truthy, `parseFloat` gives `q`).
  `Option ℚ` models a `parseFloat` result, `none` standing for NaN.
* Fields absent from the JSON payload are `none`.
* The orchestration of `main`, which only branches on which awaited
  step fails, is modelled by `mainOutcome : FailPoint → RunOutcome`,
  a direct transcription of its control flow (spawn, try/finally,
  the top-level catch).
-/

namespace JsonToPdf

/-- Templates that need PDF-level margins (`PRINT_MARGIN_TEMPLATES`). -/
def PRINT_MARGIN_TEMPLATES : List String :=
  ["azurill", "bronzor", "kakuna", "lapras", "onyx", "pikachu", "rhyhorn"]

/-- The fixed enumerated template set (`VALID_TEMPLATES`). -/
def VALID_TEMPLATES : List String :=
  ["azurill", "bronzor", "chikorita", "ditgar", "ditto",
   "gengar", "glalie", "kakuna", "lapras", "leafish",
   "onyx", "pikachu", "rhyhorn"]

/-- The fixed enumerated page-format set (`VALID_FORMATS`). -/
def VALID_FORMATS : List String := ["a4", "letter", "free-form"]

/-- Page width/height in CSS pixels (`PAGE_DIMENSIONS` entries). -/
structure Dimensions where
  width : ℕ
  height : ℕ
deriving DecidableEq, Repr

/-- The `PAGE_DIMENSIONS` lookup table; `none` for a key not in the table. -/
def PAGE_DIMENSIONS : String → Option Dimensions
  | "a4" => some ⟨794, 1123⟩
  | "letter" => some ⟨816, 1056⟩
  | "free-form" => some ⟨794, 1123⟩
  | _ => none

/-- Dimensions actually used by `main`: `PAGE_DIMENSIONS[format] ?? PAGE_DIMENSIONS.a4`. -/
def dimensionsFor (format : String) : Dimensions :=
  (PAGE_DIMENSIONS format).getD ⟨794, 1123⟩

/-- Horizontal PDF margin in pixels (lines 354–360 of `json-to-pdf.ts`):
`0`, unless the template is in `PRINT_MARGIN_TEMPLATES`, in which case
`Math.round(Number(pageSettings?.marginX ?? 14) / 0.75)`. -/
def computeMarginX (template : String) (rawX : Option ℚ) : ℤ :=
  if template ∈ PRINT_MARGIN_TEMPLATES then round ((rawX.getD 14) / (3 / 4 : ℚ)) else 0

/-- Vertical PDF margin in pixels (lines 354–360 of `json-to-pdf.ts`):
`0`, unless the template is in `PRINT_MARGIN_TEMPLATES`, in which case
`Math.round(Number(pageSettings?.marginY ?? 12) / 0.75)`. -/
def computeMarginY (template : String) (rawY : Option ℚ) : ℤ :=
  if template ∈ PRINT_MARGIN_TEMPLATES then round ((rawY.getD 12) / (3 / 4 : ℚ)) else 0

/-- Value of a CSS custom property as returned by
`getComputedStyle(..).getPropertyValue("--page-height").trim()`:
the empty string, a non-empty string with no leading number, or a
string whose leading numeric part is `q`. -/
inductive PropValue
  | empty
  | nonNumeric
  | num (q : ℚ)
deriving DecidableEq, Repr

/-- Result of `Number.parseFloat` on a `PropValue`; `none` stands for NaN. -/
def PropValue.parseFloat : PropValue → Option ℚ
  | .num q => some q
  | _ => none

/-- The `.resume-preview-container` element: only its `--page-height`
custom property is read or written by the geometry pass. -/
structure ContainerState where
  pageHeight : PropValue
deriving DecidableEq, Repr

/-- A `[data-page-index]` element as seen by the geometry pass:
its parsed page index, its `offsetHeight`, its computed
`margin-bottom` in pixels, and its inline `break-before` /
`break-inside` style values (`none` when unset). -/
structure PageElement where
  pageIndex : ℕ
  offsetHeight : ℚ
  marginBottom : ℚ
  breakBefore : Option String
  breakInside : Option String
deriving DecidableEq, Repr

/-- The slice of the DOM read and mutated by the in-page geometry pass:
the document root's `--page-height`, the optional preview container,
and the list of page elements in document order. -/
structure DomState where
  rootPageHeight : PropValue
  container : Option ContainerState
  pages : List PageElement
deriving DecidableEq, Repr

/-- Free-form loop `for (let i = 0; i < numberOfPages - 1; i++)`:
set `style.marginBottom` of every page element but the last to `mpx`. -/
def applySpacing : List PageElement → ℚ → List PageElement
  | [], _ => []
  | [el], _ => [el]
  | el :: rest, mpx => { el with marginBottom := mpx } :: applySpacing rest mpx

/-- The `--page-height` string the fixed-format branch parses:
`containerHeight || rootHeight`, where `containerHeight` is `null`
when there is no container and the container's (trimmed) property
value otherwise, and the empty string is falsy. -/
def effectivePageHeight (dom : DomState) : PropValue :=
  match dom.container with
  | some c => if c.pageHeight = .empty then dom.rootPageHeight else c.pageHeight
  | none => dom.rootPageHeight

/-- Total content height computed by the free-form branch after the
spacing loop: the sum of `offsetHeight + marginBottom` over the page
elements once every element but the last has `marginBottom` set to
`marginY * 0.75`. -/
def freeFormTotal (marginY : ℤ) (pages : List PageElement) : ℚ :=
  ((applySpacing pages ((marginY : ℚ) * (3 / 4 : ℚ))).map
    fun el => el.offsetHeight + el.marginBottom).sum

/-- The `page.evaluate` geometry pass (lines 364–412 of `json-to-pdf.ts`),
parameterized exactly as in the source by `(marginY, isFreeForm,
minPageHeight)` and acting on the DOM slice. Returns the mutated DOM
together with the evaluated result: `some total` (the return value
`Math.max(totalHeight, minPageHeight)`) in the free-form branch, `none`
(the `return null`) in the fixed-format branch. In the fixed-format
branch the height write is guarded by `!Number.isNaN(heightValue)`,
and `Math.max(NaN, x)` is NaN, so a non-numeric property value skips
the write. -/
def geometryPass (marginY : ℤ) (isFreeForm : Bool) (minPageHeight : ℚ)
    (dom : DomState) : DomState × Option ℚ :=
  if isFreeForm then
    let marginYAsPixels : ℚ := (marginY : ℚ) * (3 / 4 : ℚ)
    let pages2 := applySpacing dom.pages marginYAsPixels
    let totalHeight := (pages2.map fun el => el.offsetHeight + el.marginBottom).sum
    ({ dom with pages := pages2 }, some (max totalHeight minPageHeight))
  else
    let dom2 : DomState :=
      match (effectivePageHeight dom).parseFloat with
      | some v =>
        let newHeight := PropValue.num (max v minPageHeight - (marginY : ℚ))
        { dom with
            rootPageHeight := newHeight,
            container := dom.container.map fun c =>
              ({ c with pageHeight := newHeight } : ContainerState) }
      | none => dom
    let pages2 := dom2.pages.map fun el =>
      ({ el with
          breakBefore := if el.pageIndex > 0 then some "page" else el.breakBefore,
          breakInside := some "auto" } : PageElement)
    ({ dom2 with pages := pages2 }, none)

/-- The `metadata.page` object of the payload; absent fields are `none`. -/
structure PageMeta where
  format : Option String
  marginX : Option ℚ
  marginY : Option ℚ
deriving DecidableEq, Repr

/-- The `metadata` object of the payload; absent fields are `none`. -/
structure Metadata where
  template : Option String
  page : Option PageMeta
deriving DecidableEq, Repr

/-- The slice of the parsed resume payload the tool reads: the optional
`metadata` object. -/
structure Payload where
  metadata : Option Metadata
deriving DecidableEq, Repr

/-- CLI-override merge (lines 172–182 of `json-to-pdf.ts`): mutates
`metadata.template` when a `--template` value is given, truthy (JS
truthiness of a string: non-empty), and `metadata` exists, and
`metadata.page.format` when a `--format` value is given, truthy, and
both `metadata` and `metadata.page` exist; otherwise leaves the payload
unchanged (`if (values.template)` / `if (values.format)` skip an empty
override value such as `--template=`). -/
def applyOverrides (p : Payload) (templateOpt formatOpt : Option String) : Payload :=
  match p.metadata with
  | none => p
  | some m =>
    let m1 : Metadata :=
      match templateOpt with
      | some t => if t ≠ "" then { m with template := some t } else m
      | none => m
    let m2 : Metadata :=
      match formatOpt with
      | some f =>
        if f ≠ "" then
          match m1.page with
          | some pg => { m1 with page := some ({ pg with format := some f } : PageMeta) }
          | none => m1
        else m1
      | none => m1
    { p with metadata := some m2 }

/-- Effective template (line 185): `String(metadata?.template ?? "onyx")`. -/
def effectiveTemplate (p : Payload) : String :=
  (p.metadata.bind fun m => m.template).getD "onyx"

/-- Effective page settings (line 186): `metadata?.page`. -/
def effectivePage (p : Payload) : Option PageMeta :=
  p.metadata.bind fun m => m.page

/-- Effective format (line 187): `String(pageSettings?.format ?? "a4")`. -/
def effectiveFormat (p : Payload) : String :=
  ((effectivePage p).bind fun pg => pg.format).getD "a4"

/-- Result of the top-level phase of the script (everything executed
before `main()` is invoked): either `process.exit` with a code, or
proceeding into `main` with the effective template and format. The
`Bool` records whether any server/browser process was spawned by then
(spawning happens only inside `main`, so it is `false` on every early
exit). -/
inductive TopLevelResult
  | earlyExit (code : ℕ) (serverSpawned : Bool)
  | run (effTemplate effFormat : String) : TopLevelResult
deriving DecidableEq, Repr

/-- Top-level flow of the script for a non-`--help` invocation with a
payload that parses (lines 147–187): validate the `--template` and
`--format` override values against the enumerated sets (exit 1 on an
unknown value, before anything is spawned), then merge overrides into
the payload and resolve the effective template and format. Each check
is guarded by JS truthiness (`values.template &&
!VALID_TEMPLATES.includes(values.template)`), so an empty override
value such as `--template=` skips validation. The payload-embedded
values themselves are never validated. -/
def runTopLevel (templateOpt formatOpt : Option String) (payload : Payload) :
    TopLevelResult :=
  if templateOpt.any (fun t => t != "" && !(VALID_TEMPLATES.contains t)) then
    .earlyExit 1 false
  else if formatOpt.any (fun f => f != "" && !(VALID_FORMATS.contains f)) then
    .earlyExit 1 false
  else
    let p := applyOverrides payload templateOpt formatOpt
    .run (effectiveTemplate p) (effectiveFormat p)

/-- Arguments of the `page.pdf(...)` call (lines 421–433): width and
height in CSS pixels (passed as `"<n>px"` strings in the source, kept
numeric here), the three boolean capture options, and the four margins. -/
structure PdfParams where
  widthPx : ℕ
  heightPx : ℚ
  tagged : Bool
  waitForFonts : Bool
  printBackground : Bool
  marginTop : ℤ
  marginRight : ℤ
  marginBottom : ℤ
  marginLeft : ℤ
deriving DecidableEq, Repr

/-- Evaluation of `const pdfHeight = isFreeForm && contentHeight ?
contentHeight : dimensions.height` — `contentHeight` is falsy when
`null` or `0`. -/
def pdfHeightValue (isFreeForm : Bool) (contentHeight : Option ℚ)
    (dims : Dimensions) : ℚ :=
  match isFreeForm, contentHeight with
  | true, some h => if h ≠ 0 then h else (dims.height : ℚ)
  | _, _ => (dims.height : ℚ)

/-- The capture stage of `main` (lines 333–433): resolve dimensions via
`PAGE_DIMENSIONS[format] ?? PAGE_DIMENSIONS.a4`, compute the margins,
run the geometry pass with `minPageHeight = dimensions.height`, and
assemble the `page.pdf` arguments. -/
def runCapture (format template : String) (rawX rawY : Option ℚ)
    (dom : DomState) : PdfParams :=
  let dims := dimensionsFor format
  let marginX := computeMarginX template rawX
  let marginY := computeMarginY template rawY
  let isFreeForm : Bool := format == "free-form"
  let contentHeight := (geometryPass marginY isFreeForm (dims.height : ℚ) dom).2
  { widthPx := dims.width
    heightPx := pdfHeightValue isFreeForm contentHeight dims
    tagged := true
    waitForFonts := true
    printBackground := true
    marginTop := marginY
    marginRight := marginX
    marginBottom := 0
    marginLeft := marginX }

/-- The awaited step of `main` at which the run fails, if any. -/
inductive FailPoint
  | serverStartTimeout
  | serverExitedEarly
  | serverUnreachable
  | browserNotFound
  | browserLaunchFailure
  | navigationTimeout
  | pdfCaptureFailure
  | success
deriving DecidableEq, Repr

/-- Observable end state of one invocation of the tool: the process
exit code, whether the Vite server child was spawned, whether
`viteChild.kill()` was ever called, whether a browser connection was
opened, whether `browser.close()` was called, and whether the output
file was written. -/
structure RunOutcome where
  exitCode : ℕ
  serverSpawned : Bool
  serverKillCalled : Bool
  browserOpened : Bool
  browserCloseCalled : Bool
  outputWritten : Bool
deriving DecidableEq, Repr

/-- Control flow of `main()` plus the top-level `main().catch` handler
(lines 267–449), transcribed path by path for a local-browser run:

* `startViteServer` spawns the child, then either of its reject paths
  (the 60-second start timeout, an early non-zero exit) rejects
  without killing the child; the rejection reaches `main().catch`,
  which only logs and calls `process.exit(1)`.
* a `waitForServer` failure likewise propagates with no cleanup;
* when `findSystemChrome` returns `null`, the code explicitly calls
  `viteChild.kill()` before `process.exit(1)`;
* a `puppeteer.launch` rejection propagates before the `try` block is
  entered, so neither handle is released;
* failures inside the `try` block (navigation timeout, `page.pdf`
  failure) skip the write and reach the `finally` block, which closes
  the browser and kills the server;
* on success the PDF is written and the `finally` block runs. -/
def mainOutcome (failAt : FailPoint) : RunOutcome := Id.run do
  let mut st : RunOutcome :=
    { exitCode := 0, serverSpawned := false, serverKillCalled := false,
      browserOpened := false, browserCloseCalled := false, outputWritten := false }
  st := { st with serverSpawned := true }
  if failAt = .serverStartTimeout ∨ failAt = .serverExitedEarly then
    return { st with exitCode := 1 }
  if failAt = .serverUnreachable then
    return { st with exitCode := 1 }
  if failAt = .browserNotFound then
    return { st with serverKillCalled := true, exitCode := 1 }
  if failAt = .browserLaunchFailure then
    return { st with exitCode := 1 }
  st := { st with browserOpened := true }
  if failAt = .navigationTimeout ∨ failAt = .pdfCaptureFailure then
    return { st with browserCloseCalled := true, serverKillCalled := true, exitCode := 1 }
  st := { st with outputWritten := true }
  return { st with browserCloseCalled := true, serverKillCalled := true, exitCode := 0 }

/-- Values of `process.platform` distinguished by `findSystemChrome`. -/
inductive Platform
  | darwin
  | linux
  | win32
  | other
deriving DecidableEq, Repr

/-- The three Windows environment variables read when building the
win32 candidate list. -/
structure WinEnv where
  programFiles : Option String
  programFilesX86 : Option String
  localAppData : Option String
deriving DecidableEq, Repr

/-- The ordered platform-specific candidate executable list built by
`findSystemChrome` (lines 66–94). -/
def candidatePaths : Platform → WinEnv → List String
  | .darwin, _ =>
    ["/Applications/Google Chrome.app/Contents/MacOS/Google Chrome",
     "/Applications/Chromium.app/Contents/MacOS/Chromium",
     "/Applications/Google Chrome Canary.app/Contents/MacOS/Google Chrome Canary",
     "/Applications/Brave Browser.app/Contents/MacOS/Brave Browser",
     "/Applications/Microsoft Edge.app/Contents/MacOS/Microsoft Edge"]
  | .linux, _ =>
    ["/usr/bin/google-chrome",
     "/usr/bin/google-chrome-stable",
     "/usr/bin/chromium",
     "/usr/bin/chromium-browser",
     "/snap/bin/chromium"]
  | .win32, env =>
    let programFiles := env.programFiles.getD "C:\\Program Files"
    let programFilesX86 := env.programFilesX86.getD "C:\\Program Files (x86)"
    let localAppData := env.localAppData.getD ""
    [programFiles ++ "\\Google\\Chrome\\Application\\chrome.exe",
     programFilesX86 ++ "\\Google\\Chrome\\Application\\chrome.exe",
     localAppData ++ "\\Google\\Chrome\\Application\\chrome.exe",
     programFiles ++ "\\Microsoft\\Edge\\Application\\msedge.exe"]
  | .other, _ => []

/-- Embedding of `findSystemChrome` (lines 60–97), parameterized by the `CHROME_PATH`
environment value, the platform, the Windows environment values, and a
filesystem oracle `existsFs` standing for `existsSync`. The env check
is `process.env.CHROME_PATH && existsSync(process.env.CHROME_PATH)`,
so an unset or empty `CHROME_PATH` (falsy) and a non-existing one both
fall through to the candidate probe
`candidates.find((p) => existsSync(p)) ?? null`. -/
def findSystemChrome (chromePath : Option String) (plat : Platform)
    (env : WinEnv) (existsFs : String → Bool) : Option String :=
  match chromePath with
  | some p =>
    if p ≠ "" ∧ existsFs p then some p
    else (candidatePaths plat env).find? fun c => existsFs c
  | none => (candidatePaths plat env).find? fun c => existsFs c

/-- JavaScript `s.replace(/\.json$/i, ".pdf")` on a path modelled as a
list of characters: when the last five characters, lowercased, are
`.json`, they are replaced by `.pdf`; otherwise the path is returned
unchanged. (For a list shorter than five characters `List.drop` drops
nothing and the five-character comparison fails, as the anchored regex
does.) -/
def defaultOutputPath (input : List Char) : List Char :=
  if (input.drop (input.length - 5)).map Char.toLower = ".json".data
  then input.take (input.length - 5) ++ ".pdf".data
  else input

/-- Concrete fixed-format DOM in which the page-height property is a
non-empty non-numeric string on the root and there is no container. -/
def c3Dom : DomState :=
  { rootPageHeight := .nonNumeric, container := none,
    pages := [⟨0, 300, 0, none, none⟩, ⟨1, 500, 0, none, none⟩] }

/-- Concrete fixed-format DOM whose container carries a numeric
page-height of 1400 (the root carries 1500, shadowed by the container). -/
def c3wDom : DomState :=
  { rootPageHeight := .num 1500, container := some ⟨.num 1400⟩,
    pages := [⟨0, 100, 0, none, none⟩, ⟨1, 200, 0, none, none⟩] }

/-- Concrete free-form DOM with three page elements of rendered heights
500, 600 and 400 and no pre-existing bottom margins. -/
def c4Dom : DomState :=
  { rootPageHeight := .empty, container := none,
    pages := [⟨0, 500, 0, none, none⟩, ⟨1, 600, 0, none, none⟩,
              ⟨2, 400, 0, none, none⟩] }

end JsonToPdf

open JsonToPdf

/-- The fixed-format branch of the geometry pass returns `null`. -/
theorem geometryPass_fixed_snd (mY : ℤ) (minH : ℚ) (dom : DomState) :
    (geometryPass mY false minH dom).2 = none := rfl

/-- The free-form branch of the geometry pass returns
`Math.max(totalHeight, minPageHeight)`. -/
theorem geometryPass_free_snd (mY : ℤ) (minH : ℚ) (dom : DomState) :
    (geometryPass mY true minH dom).2 = some (max (freeFormTotal mY dom.pages) minH) := rfl

/-- The fixed-format branch rewrites every page element's break styles
(and touches nothing else about the page list). -/
theorem geometryPass_fixed_pages (mY : ℤ) (minH : ℚ) (dom : DomState) :
    (geometryPass mY false minH dom).1.pages =
      dom.pages.map fun el =>
        ({ el with
            breakBefore := if el.pageIndex > 0 then some "page" else el.breakBefore,
            breakInside := some "auto" } : PageElement) := by
  cases hp : (effectivePageHeight dom).parseFloat <;>
    simp [geometryPass, hp]

/-- C2: for every request, if the effective template is in the print-margin
set then `marginXPx = round(rawX / 0.75)` and `marginYPx = round(rawY / 0.75)`,
with payload-supplied raw values defaulting to 14 (horizontal) and 12
(vertical); for every template not in that set, both computed margins are
exactly 0 regardless of the payload's margin values. -/
theorem C2_margins (template : String) (rawX rawY : Option ℚ) :
    (template ∈ JsonToPdf.PRINT_MARGIN_TEMPLATES →
      JsonToPdf.computeMarginX template rawX = round ((rawX.getD 14) / (3 / 4 : ℚ)) ∧
      JsonToPdf.computeMarginY template rawY = round ((rawY.getD 12) / (3 / 4 : ℚ))) ∧
    (template ∉ JsonToPdf.PRINT_MARGIN_TEMPLATES →
      JsonToPdf.computeMarginX template rawX = 0 ∧
      JsonToPdf.computeMarginY template rawY = 0) := by
  constructor
  · intro h
    constructor
    · simp [JsonToPdf.computeMarginX, h]
    · simp [JsonToPdf.computeMarginY, h]
  · intro h
    constructor
    · simp [JsonToPdf.computeMarginX, h]
    · simp [JsonToPdf.computeMarginY, h]

/-- Witness for C2: instantiated at the print-margin template `"onyx"` with
raw margins 14/12 (giving 19/16 px) and at the non-print-margin template
`"ditto"` with payload margins 50/50 (giving 0/0). -/
theorem C2_margins_witness :
    JsonToPdf.computeMarginX "onyx" (some 14) = 19 ∧
    JsonToPdf.computeMarginY "onyx" (some 12) = 16 ∧
    JsonToPdf.computeMarginX "ditto" (some 50) = 0 ∧
    JsonToPdf.computeMarginY "ditto" (some 50) = 0 := by
  have h₁ := C2_margins "onyx" (some 14) (some 12)
  have h₂ := C2_margins "ditto" (some 50) (some 50)
  have hin : "onyx" ∈ JsonToPdf.PRINT_MARGIN_TEMPLATES := by decide
  have hout : "ditto" ∉ JsonToPdf.PRINT_MARGIN_TEMPLATES := by decide
  refine ⟨?_, ?_, (h₂.2 hout).1, (h₂.2 hout).2⟩
  · rw [(h₁.1 hin).1]
    norm_num [round_eq]
  · rw [(h₁.1 hin).2]
    norm_num [round_eq]

/-- C1 (failing input evaluated): when the rendering server never emits a
ready URL within the 60-second startup timeout, the run fails with exit
code 1 and no output file is created, but `viteChild.kill()` is never
called — `startViteServer`'s timeout handler rejects the promise without
killing the already-spawned child, and the top-level `main().catch`
handler exits without any cleanup, so the server process is not
terminated, contradicting the claim that all RenderSession handles are
released on every exit path. -/
theorem C1_server_timeout_no_cleanup :
    mainOutcome .serverStartTimeout =
      { exitCode := 1, serverSpawned := true, serverKillCalled := false,
        browserOpened := false, browserCloseCalled := false,
        outputWritten := false } := by decide

/-- C3 (counterexample): on a fixed-format run whose effective
page-height property value is a non-empty non-numeric string, the
geometry pass does not set the page-height property at all — the root
property still holds the non-numeric value afterwards and parses to no
number — because the write is guarded by `!Number.isNaN(heightValue)`.
This refutes the claim that the pass always sets the page-height
property to `max(originalHeight, minPageHeight) - marginY`. -/
theorem C3_counterexample :
    (geometryPass 16 false 1123 c3Dom).1.rootPageHeight = PropValue.nonNumeric ∧
    ((geometryPass 16 false 1123 c3Dom).1.rootPageHeight).parseFloat = none ∧
    (geometryPass 16 false 1123 c3Dom).2 = none := by decide

/-- C3 (amended): for every fixed-format run, the geometry pass returns
`null`; whenever the effective page-height property value parses to a
number `v`, it sets the page-height property on the document root — and
on the container when present — to `max(v, minPageHeight) - marginY`;
and it applies a page break before every page element except the first:
an element with page-index 0 keeps its break-before style unchanged,
every element with page-index ≥ 1 gets `break-before: page`, and every
element gets `break-inside: auto`. -/
theorem C3_fixed_geometry (mY : ℤ) (minH : ℚ) (dom : DomState) :
    (geometryPass mY false minH dom).2 = none ∧
    (∀ v : ℚ, (effectivePageHeight dom).parseFloat = some v →
      (geometryPass mY false minH dom).1.rootPageHeight =
        PropValue.num (max v minH - (mY : ℚ)) ∧
      ∀ c, dom.container = some c →
        (geometryPass mY false minH dom).1.container =
          some ⟨PropValue.num (max v minH - (mY : ℚ))⟩) ∧
    (geometryPass mY false minH dom).1.pages.length = dom.pages.length ∧
    (∀ i (h1 : i < dom.pages.length)
        (h2 : i < (geometryPass mY false minH dom).1.pages.length),
      ((dom.pages.get ⟨i, h1⟩).pageIndex = 0 →
        ((geometryPass mY false minH dom).1.pages.get ⟨i, h2⟩).breakBefore =
          (dom.pages.get ⟨i, h1⟩).breakBefore) ∧
      (1 ≤ (dom.pages.get ⟨i, h1⟩).pageIndex →
        ((geometryPass mY false minH dom).1.pages.get ⟨i, h2⟩).breakBefore =
          some "page") ∧
      ((geometryPass mY false minH dom).1.pages.get ⟨i, h2⟩).breakInside =
        some "auto") := by
  refine ⟨geometryPass_fixed_snd mY minH dom, ?_, ?_, ?_⟩
  · intro v hv
    constructor
    · simp [geometryPass, hv]
    · intro c hc
      simp [geometryPass, hv, hc]
  · rw [geometryPass_fixed_pages]
    exact List.length_map _ _
  · intro i h1 h2
    have hg : (geometryPass mY false minH dom).1.pages.get ⟨i, h2⟩ =
        ({ (dom.pages.get ⟨i, h1⟩) with
            breakBefore := if (dom.pages.get ⟨i, h1⟩).pageIndex > 0
              then some "page" else (dom.pages.get ⟨i, h1⟩).breakBefore,
            breakInside := some "auto" } : PageElement) := by
      have := geometryPass_fixed_pages mY minH dom
      simp only [List.get_eq_getElem] at this ⊢
      simp [this]
    refine ⟨?_, ?_, ?_⟩
    · intro h0
      rw [hg]
      show (if (dom.pages.get ⟨i, h1⟩).pageIndex > 0 then some "page"
            else (dom.pages.get ⟨i, h1⟩).breakBefore) =
          (dom.pages.get ⟨i, h1⟩).breakBefore
      rw [h0]
      simp
    · intro h1le
      rw [hg]
      show (if (dom.pages.get ⟨i, h1⟩).pageIndex > 0 then some "page"
            else (dom.pages.get ⟨i, h1⟩).breakBefore) = some "page"
      rw [if_pos (Nat.lt_of_lt_of_le Nat.zero_lt_one h1le)]
    · rw [hg]

/-- Witness for C3 (amended): on `c3wDom` (container page-height 1400,
margin 16, minimum 1123) the root property is set to
`max(1400, 1123) - 16 = 1384`, and the second page element (page-index 1)
gets `break-before: page`. -/
theorem C3_fixed_geometry_witness :
    (geometryPass 16 false 1123 c3wDom).1.rootPageHeight = PropValue.num 1384 ∧
    ((geometryPass 16 false 1123 c3wDom).1.pages.get ⟨1, by decide⟩).breakBefore =
      some "page" := by
  have h := C3_fixed_geometry 16 1123 c3wDom
  constructor
  · have h2 := (h.2.1 1400 (by decide)).1
    rw [h2]
    norm_num [max_def]
  · exact (h.2.2.2 1 (by decide) (by decide)).2.1 (by decide)

/-- C4 (counterexample): in the free-form scenario with three page
elements of heights 500/600/400 and a payload vertical margin of 12 raw
units under a print-margin template, the computed content height is
1524, not the claimed 1518: the margin passed into the page is already
the pixel value `round(12 / 0.75) = 16`, so the effective inter-element
spacing is `16 * 0.75 = 12` pixels, not 9. -/
theorem C4_counterexample :
    (geometryPass (computeMarginY "onyx" (some 12)) true 1123 c4Dom).2 =
      some 1524 ∧
    (((1524 : ℚ) == 1518) = false) := by
  have hm : computeMarginY "onyx" (some 12) = 16 := by
    norm_num [computeMarginY, PRINT_MARGIN_TEMPLATES, round_eq]
  constructor
  · rw [hm, geometryPass_free_snd]
    norm_num [freeFormTotal, applySpacing, c4Dom, max_def]
  · decide

/-- C4 (amended): in the free-form scenario with three page elements of
heights 500/600/400 and a payload vertical margin of 12 raw units under
a print-margin template, the effective inter-element spacing is
`round(12 / 0.75) * 0.75 = 12` pixels, the computed total content
height is `500 + 12 + 600 + 12 + 400 = 1524`, and the capture height is
`max(1524, minPageHeight) = max(1524, 1123) = 1524`. -/
theorem C4_free_form_scenario :
    (geometryPass (computeMarginY "onyx" (some 12)) true 1123 c4Dom).2 =
      some (max 1524 1123) ∧
    (runCapture "free-form" "onyx" (some 14) (some 12) c4Dom).heightPx = 1524 := by
  have hm : computeMarginY "onyx" (some 12) = 16 := by
    norm_num [computeMarginY, PRINT_MARGIN_TEMPLATES, round_eq]
  have htot : freeFormTotal 16 c4Dom.pages = 1524 := by
    norm_num [freeFormTotal, applySpacing, c4Dom]
  constructor
  · rw [hm, geometryPass_free_snd, htot]
  · have hd : dimensionsFor "free-form" = ⟨794, 1123⟩ := rfl
    simp only [runCapture, hd, hm]
    rw [show (("free-form" : String) == "free-form") = true from rfl,
      geometryPass_free_snd, htot]
    norm_num [pdfHeightValue, max_def]

/-- C5 (counterexample): when the payload has no `metadata` object, a
`--template` override is silently dropped — the effective template is
the default `"onyx"`, not the override `"bronzor"` — because the merge
step only assigns into an existing `metadata` object. -/
theorem C5_counterexample :
    effectiveTemplate (applyOverrides ⟨none⟩ (some "bronzor") none) = "onyx" ∧
    (("onyx" == "bronzor") = false) := by
  exact ⟨rfl, rfl⟩

/-- C5 (amended): the effective template and page format are built by
merging CLI overrides into the payload-embedded metadata with overrides
winning, provided the override value is truthy (a non-empty string, as
for any value Node's `parseArgs` produces except `--template=` /
`--format=`) and the payload has a `metadata` object — and, for the
format, additionally a `metadata.page` object; when the override is
empty or those objects are absent the override is silently ignored. -/
theorem C5_overrides_win :
    (∀ (p : Payload) (m : Metadata) (t : String) (fOpt : Option String),
      p.metadata = some m → t ≠ "" →
      effectiveTemplate (applyOverrides p (some t) fOpt) = t) ∧
    (∀ (p : Payload) (m : Metadata) (pg : PageMeta) (tOpt : Option String)
      (f : String),
      p.metadata = some m → m.page = some pg → f ≠ "" →
      effectiveFormat (applyOverrides p tOpt (some f)) = f) := by
  constructor
  · intro p m t fOpt hm ht
    cases fOpt with
    | none =>
      cases hpg : m.page <;>
        simp [applyOverrides, effectiveTemplate, hm, hpg, ht]
    | some f =>
      by_cases hf : f = "" <;> cases hpg : m.page <;>
        simp [applyOverrides, effectiveTemplate, hm, hpg, ht, hf]
  · intro p m pg tOpt f hm hpg hf
    cases tOpt with
    | none =>
      simp [applyOverrides, effectiveFormat, effectivePage, hm, hpg, hf]
    | some t =>
      by_cases ht : t = "" <;>
        simp [applyOverrides, effectiveFormat, effectivePage, hm, hpg, hf, ht]

/-- Witness for C5 (amended): a payload carrying
`metadata.template = "onyx"` and `metadata.page.format = "a4"`; a
`--template=bronzor` override yields effective template `"bronzor"` and
a `--format=letter` override yields effective format `"letter"`. -/
theorem C5_overrides_win_witness :
    effectiveTemplate
      (applyOverrides ⟨some ⟨some "onyx", some ⟨some "a4", none, none⟩⟩⟩
        (some "bronzor") none) = "bronzor" ∧
    effectiveFormat
      (applyOverrides ⟨some ⟨some "onyx", some ⟨some "a4", none, none⟩⟩⟩
        none (some "letter")) = "letter" := by
  have h := C5_overrides_win
  exact ⟨h.1 _ ⟨some "onyx", some ⟨some "a4", none, none⟩⟩ "bronzor" none rfl
           (by decide),
         h.2 _ ⟨some "onyx", some ⟨some "a4", none, none⟩⟩ ⟨some "a4", none, none⟩
           none "letter" rfl rfl (by decide)⟩

/-- C6 (counterexample): a payload-embedded template outside the
enumerated set is never validated: with `metadata.template =
"not-a-template"` and no CLI overrides, the top-level phase proceeds
into `main` (which then spawns the server) with that unknown value as
the run's effective templateId instead of exiting with code 1. -/
theorem C6_counterexample :
    runTopLevel none none ⟨some ⟨some "not-a-template", none⟩⟩ =
      TopLevelResult.run "not-a-template" "a4" ∧
    (VALID_TEMPLATES.contains "not-a-template") = false := by
  exact ⟨rfl, by decide⟩

/-- C6 (amended): every non-empty (truthy) `--template` and `--format`
override value is validated against the fixed enumerated sets, and an
unknown such override value is fatal with exit code 1 before any server
or browser process is spawned; an empty override value (`--template=`)
is falsy and skips validation, and payload-embedded template and format
values are not validated. -/
theorem C6_override_validation :
    (∀ (t : String) (fOpt : Option String) (payload : Payload),
      t ≠ "" → t ∉ VALID_TEMPLATES →
      runTopLevel (some t) fOpt payload = TopLevelResult.earlyExit 1 false) ∧
    (∀ (tOpt : Option String) (f : String) (payload : Payload),
      (∀ t, tOpt = some t → t = "" ∨ t ∈ VALID_TEMPLATES) →
      f ≠ "" → f ∉ VALID_FORMATS →
      runTopLevel tOpt (some f) payload = TopLevelResult.earlyExit 1 false) := by
  constructor
  · intro t fOpt payload ht hv
    simp [runTopLevel, ht, hv]
  · intro tOpt f payload htv hf hv
    have hcond :
        (tOpt.any fun t => t != "" && !(VALID_TEMPLATES.contains t)) = false := by
      cases tOpt with
      | none => rfl
      | some t =>
        rcases htv t rfl with h0 | hmem
        · simp [h0]
        · simp [hmem]
    simp [runTopLevel, hcond, hf, hv]

/-- Witness for C6 (amended): the unknown `--template=gastly` and the
unknown `--format=a3` each cause exit code 1 with nothing spawned. -/
theorem C6_override_validation_witness :
    runTopLevel (some "gastly") none ⟨none⟩ = TopLevelResult.earlyExit 1 false ∧
    runTopLevel none (some "a3") ⟨none⟩ = TopLevelResult.earlyExit 1 false := by
  have h := C6_override_validation
  exact ⟨h.1 "gastly" none ⟨none⟩ (by decide) (by decide),
         h.2 none "a3" ⟨none⟩ (fun t ht => nomatch ht) (by decide) (by decide)⟩

/-- C7: the PDF capture always uses width = the format's fixed width,
height = `max(computedContentHeight, fixedMinHeight)` for free-form and
the format's fixed height otherwise, margins top = marginY,
left = right = marginX, bottom = 0, and requests background printing,
tagged output and a pre-capture font wait; in particular, for format
`a4` (794×1123) with the print-margin template `onyx` and raw margins
14/12, the capture is 794×1123 with margins top 16, left/right 19,
bottom 0. -/
theorem C7_pdf_capture :
    (∀ (format template : String) (rawX rawY : Option ℚ) (dom : DomState),
      runCapture format template rawX rawY dom =
        { widthPx := (dimensionsFor format).width
          heightPx :=
            if format == "free-form"
            then max (freeFormTotal (computeMarginY template rawY) dom.pages) 1123
            else ((dimensionsFor format).height : ℚ)
          tagged := true
          waitForFonts := true
          printBackground := true
          marginTop := computeMarginY template rawY
          marginRight := computeMarginX template rawX
          marginBottom := 0
          marginLeft := computeMarginX template rawX }) ∧
    (∀ dom : DomState,
      runCapture "a4" "onyx" (some 14) (some 12) dom =
        { widthPx := 794, heightPx := 1123, tagged := true,
          waitForFonts := true, printBackground := true, marginTop := 16,
          marginRight := 19, marginBottom := 0, marginLeft := 19 }) := by
  constructor
  · intro format template rawX rawY dom
    by_cases hf : format = "free-form"
    · subst hf
      have hb : (("free-form" : String) == "free-form") = true := rfl
      have hd : dimensionsFor "free-form" = ⟨794, 1123⟩ := rfl
      have hne :
          max (freeFormTotal (computeMarginY template rawY) dom.pages)
            (1123 : ℚ) ≠ 0 := by
        have h1 : (1123 : ℚ) ≤
            max (freeFormTotal (computeMarginY template rawY) dom.pages) 1123 :=
          le_max_right _ _
        intro h0
        rw [h0] at h1
        norm_num at h1
      simp only [runCapture, hb, hd, if_true, geometryPass_free_snd]
      simp [pdfHeightValue, hne]
    · have hb : (format == "free-form") = false := beq_eq_false_iff_ne.mpr hf
      simp only [runCapture, hb, if_false, geometryPass_fixed_snd]
      simp [pdfHeightValue]
  · intro dom
    have hb : (("a4" : String) == "free-form") = false := rfl
    have hd : dimensionsFor "a4" = ⟨794, 1123⟩ := rfl
    have hx : computeMarginX "onyx" (some 14) = 19 := by
      norm_num [computeMarginX, PRINT_MARGIN_TEMPLATES, round_eq]
    have hy : computeMarginY "onyx" (some 12) = 16 := by
      norm_num [computeMarginY, PRINT_MARGIN_TEMPLATES, round_eq]
    simp only [runCapture, hb, hd, hx, hy, geometryPass_fixed_snd]
    simp [pdfHeightValue]

/-- C8: geometry computation is deterministic — for a fixed page
format, template, margin values and an unchanged DOM snapshot, running
the computation twice yields identical output. The embedding makes the
geometry pass a pure function of exactly these inputs, so the two runs
are definitionally the same value. -/
theorem C8_determinism (format template : String) (rawX rawY : Option ℚ)
    (dom : DomState) :
    runCapture format template rawX rawY dom =
      runCapture format template rawX rawY dom ∧
    geometryPass (computeMarginY template rawY) (format == "free-form")
        ((dimensionsFor format).height : ℚ) dom =
      geometryPass (computeMarginY template rawY) (format == "free-form")
        ((dimensionsFor format).height : ℚ) dom :=
  ⟨rfl, rfl⟩

/-- C9: if `CHROME_PATH` is set but does not name an existing file (a
set value is a non-empty string), local browser resolution silently
ignores it and probes the platform-specific candidate list, and
resolution returns `null` exactly when the override path (if any) and
every platform candidate are absent from disk. -/
theorem C9_chrome_resolution (chromePath : Option String) (plat : Platform)
    (env : WinEnv) (existsFs : String → Bool)
    (hne : ∀ p, chromePath = some p → p ≠ "") :
    (findSystemChrome chromePath plat env existsFs = none ↔
      ((∀ p, chromePath = some p → existsFs p = false) ∧
       ∀ c ∈ candidatePaths plat env, existsFs c = false)) ∧
    (∀ p, chromePath = some p → existsFs p = false →
      findSystemChrome chromePath plat env existsFs =
        (candidatePaths plat env).find? fun c => existsFs c) := by
  constructor
  · cases chromePath with
    | none => simp [findSystemChrome, List.find?_eq_none]
    | some p =>
      have hp : p ≠ "" := hne p rfl
      by_cases he : existsFs p
      · simp [findSystemChrome, hp, he]
      · simp [findSystemChrome, hp, he, List.find?_eq_none]
  · intro p hp hef
    subst hp
    simp [findSystemChrome, hef]

/-- Witness for C9: `CHROME_PATH=/no/such/chrome` on Linux with an
empty filesystem resolves to `null`. -/
theorem C9_chrome_resolution_witness :
    findSystemChrome (some "/no/such/chrome") Platform.linux
      ⟨none, none, none⟩ (fun _ => false) = none := by
  have h := C9_chrome_resolution (some "/no/such/chrome") Platform.linux
    ⟨none, none, none⟩ (fun _ => false)
    (by intro p hp; cases hp; decide)
  exact h.1.mpr ⟨fun p hp => rfl, fun c hc => rfl⟩

/-- C10: when no output-file argument is given, the output path is the
input path with a trailing `.json` (case-insensitive) replaced by
`.pdf`; when the input does not end in `.json`, the default output path
equals the input path itself (so the produced PDF overwrites the input
file). The last two conjuncts exercise the suffix replacement for a
lower-case and an upper-case extension on an arbitrary stem. -/
theorem C10_output_path (p : List Char) :
    ((p.drop (p.length - 5)).map Char.toLower = ".json".data →
      defaultOutputPath p = p.take (p.length - 5) ++ ".pdf".data) ∧
    ((p.drop (p.length - 5)).map Char.toLower ≠ ".json".data →
      defaultOutputPath p = p) ∧
    defaultOutputPath (p ++ ".json".data) = p ++ ".pdf".data ∧
    defaultOutputPath (p ++ ".JSON".data) = p ++ ".pdf".data := by
  have hjl : (".json".data : List Char).length = 5 := rfl
  have hJl : (".JSON".data : List Char).length = 5 := rfl
  refine ⟨?_, ?_, ?_, ?_⟩
  · intro h
    unfold defaultOutputPath
    rw [if_pos h]
  · intro h
    unfold defaultOutputPath
    rw [if_neg h]
  · have e1 : (p ++ ".json".data).length - 5 = p.length := by
      rw [List.length_append, hjl]
      omega
    have e2 : (p ++ ".json".data).drop p.length = ".json".data :=
      List.drop_left p ".json".data
    have hmap : ((".json".data : List Char)).map Char.toLower = ".json".data := by
      decide
    unfold defaultOutputPath
    rw [e1, e2, hmap, if_pos rfl, List.take_left]
  · have e1 : (p ++ ".JSON".data).length - 5 = p.length := by
      rw [List.length_append, hJl]
      omega
    have e2 : (p ++ ".JSON".data).drop p.length = ".JSON".data :=
      List.drop_left p ".JSON".data
    have hmap : ((".JSON".data : List Char)).map Char.toLower = ".json".data := by
      decide
    unfold defaultOutputPath
    rw [e1, e2, hmap, if_pos rfl, List.take_left]

/-- Witness for C10: `resume.json` maps to `resume.pdf`. -/
theorem C10_output_path_witness :
    defaultOutputPath "resume.json".data = "resume".data ++ ".pdf".data := by
  have h := (C10_output_path "resume.json".data).1 (by decide)
  rw [h]
  decide
